import Mathlib

/-!
Shallow embedding of the `examples/kepler-integration` sources of hubble.gl:
the load-data-modal factory override (`CustomLoadDataModalFactory`) and the
terrain-animation demo application, together with the configuration objects
they hand to the external kepler.gl / hubble.gl / deck.gl libraries.

JavaScript objects that are only passed through are modelled as association
lists of `JSVal`; objects whose fields the code reads are modelled as
structures with the same field names.  Numbers are `ℚ` (all literals in the
source are exact decimals), timings are `ℕ` milliseconds, and functions that
the code merely references (easing functions, React component classes) are
modelled as enumerations of those references.
-/

namespace KeplerIntegration

/-- References to React components / functions the code passes around but
never calls itself (`SampleMapGallery`, `SampleMapsTab`, and whatever the
external factory put into its own loading-method descriptors). -/
inductive ComponentRef where
  | SampleMapGallery
  | SampleMapsTab
  | external (name : String)
deriving DecidableEq, Repr

/-- A JavaScript value, as far as this code manipulates them: strings,
(rational) numbers, booleans, `undefined`, component references, and plain
objects as ordered field lists. -/
inductive JSVal where
  | str (s : String)
  | num (q : ℚ)
  | boolVal (b : Bool)
  | undef
  | compRef (c : ComponentRef)
  | obj (fields : List (String × JSVal))

/-- Property lookup on a JavaScript object modelled as a field list:
the value at the first occurrence of the key, if any. -/
def jsGet (o : List (String × JSVal)) (k : String) : Option JSVal :=
  (o.find? (fun p => p.fst == k)).map (fun p => p.snd)

/-- Modelled from the spec: the `LOADING_METHODS` constant is imported from
`../constants/default-settings`, a repository file not present under `src/`;
its `sample` entry is the string identifier of the sample-maps loading
method. -/
def LOADING_METHODS_sample : String := "sample"

/-- A loading-method descriptor as the modal consumes it:
`{id, label, elementType, tabElementType}`. -/
structure LoadingMethod where
  id : String
  label : String
  elementType : ComponentRef
  tabElementType : ComponentRef
deriving DecidableEq, Repr

/-- The object literal `additionalMethods.sample` in its JavaScript form,
field by field:
`{id: LOADING_METHODS.sample, label: 'Sample Maps', elementType: SampleMapGallery, tabElementType: SampleMapsTab}`. -/
def sampleMethodObj : List (String × JSVal) :=
  [("id", JSVal.str LOADING_METHODS_sample),
   ("label", JSVal.str "Sample Maps"),
   ("elementType", JSVal.compRef ComponentRef.SampleMapGallery),
   ("tabElementType", JSVal.compRef ComponentRef.SampleMapsTab)]

/-- The same `additionalMethods.sample` descriptor in structured form. -/
def additionalMethods_sample : LoadingMethod :=
  { id := LOADING_METHODS_sample
    label := "Sample Maps"
    elementType := ComponentRef.SampleMapGallery
    tabElementType := ComponentRef.SampleMapsTab }

/-- The `additionalMethods` object: `{sample: {...}}`. -/
def additionalMethods : List (String × JSVal) :=
  [("sample", JSVal.obj sampleMethodObj)]

/-- The `defaultProps` of the component built by the external
`LoadDataModalFactory`: its `loadingMethods` list (which the override code
reads) and all remaining default-prop entries (which it only spreads). -/
structure ModalDefaultProps where
  loadingMethods : List LoadingMethod
  otherProps : List (String × JSVal)

/-- The `defaultProps` after the override.  The new `loadingMethods` array
may contain `undefined` (when `find` misses), hence `Option`. -/
structure CustomModalDefaultProps where
  loadingMethods : List (Option LoadingMethod)
  otherProps : List (String × JSVal)

/-- The body of `CustomLoadDataModalFactory` acting on the built component's
default props:
`LoadDataModal.defaultProps = {...LoadDataModal.defaultProps, loadingMethods: [defaultLoadingMethods.find(lm => lm.id === 'upload'), additionalMethods.sample]}`.
The subsequent `withState(...)` wrap binds state and actions and does not
touch these default props. -/
def customizeDefaultProps (dp : ModalDefaultProps) : CustomModalDefaultProps :=
  { loadingMethods :=
      [dp.loadingMethods.find? (fun lm => lm.id == "upload"),
       some additionalMethods_sample]
    otherProps := dp.otherProps }

/-- The external `LoadDataModalFactory`, abstracted: a builder from a
dependency list to a component (represented by its default props), plus its
`deps` property used for dependency injection. -/
structure ComponentFactory where
  build : List JSVal → ModalDefaultProps
  deps : List JSVal

/-- `CustomLoadDataModalFactory` as a factory: same shape, customized props. -/
structure CustomComponentFactory where
  build : List JSVal → CustomModalDefaultProps
  deps : List JSVal

/-- `CustomLoadDataModalFactory = (...deps) => {...}` together with the
trailing `CustomLoadDataModalFactory.deps = LoadDataModalFactory.deps`. -/
def mkCustomLoadDataModalFactory (orig : ComponentFactory) : CustomComponentFactory :=
  { build := fun ds => customizeDefaultProps (orig.build ds)
    deps := orig.deps }

/-! ## The terrain-animation demo application -/

/-- A view state: camera pose `{latitude, longitude, zoom, bearing, pitch}`. -/
structure ViewState where
  latitude : ℚ
  longitude : ℚ
  zoom : ℚ
  bearing : ℚ
  pitch : ℚ
deriving DecidableEq, Repr

/-- `INITIAL_VIEW_STATE`. -/
def INITIAL_VIEW_STATE : ViewState :=
  { latitude := 46.24, longitude := -122.18, zoom := 11.5, bearing := 140, pitch := 60 }

/-- `MAPBOX_TOKEN = process.env.MapboxAccessToken`; the environment variable
may be absent (`undefined`), hence `Option`. -/
def MAPBOX_TOKEN (env : Option String) : Option String := env

/-- JavaScript template-literal interpolation of a possibly-undefined
string: `undefined` prints as the text "undefined". -/
def jsTemplateString (v : Option String) : String := v.getD "undefined"

/-- `TERRAIN_IMAGE`: the terrain tile URL template, built by unconditional
interpolation of the token. -/
def TERRAIN_IMAGE (env : Option String) : String :=
  "https://api.mapbox.com/v4/mapbox.terrain-rgb/\x7bz\x7d/\x7bx\x7d/\x7by\x7d.png?access_token="
    ++ jsTemplateString (MAPBOX_TOKEN env)

/-- `SURFACE_IMAGE`: the satellite tile URL template, built by unconditional
interpolation of the token. -/
def SURFACE_IMAGE (env : Option String) : String :=
  "https://api.mapbox.com/v4/mapbox.satellite/\x7bz\x7d/\x7bx\x7d/\x7by\x7d@2x.png?access_token="
    ++ jsTemplateString (MAPBOX_TOKEN env)

/-- `ELEVATION_DECODER`. -/
structure ElevationDecoder where
  rScaler : ℚ
  gScaler : ℚ
  bScaler : ℚ
  offset : ℚ
deriving DecidableEq, Repr

/-- The `ELEVATION_DECODER` constant. -/
def ELEVATION_DECODER : ElevationDecoder :=
  { rScaler := 6553.6, gScaler := 25.6, bScaler := 0.1, offset := -10000 }

/-- References to the easing functions the demo passes to the keyframe
constructors (`easing.easeInOut` and `easing.linear` from popmotion, `hold`
from hubble.gl). -/
inductive EasingRef where
  | easeInOut
  | linear
  | hold
deriving DecidableEq, Repr

/-- Modelled from the spec: the configuration record stored by hubble.gl's
`CameraKeyframes` constructor (the class itself lives outside `src/`); per
the spec it pairs an ordered millisecond timing list with an equal-length
list of view-state snapshots and easings between consecutive keyframes. -/
structure CameraKeyframesConfig where
  timings : List ℕ
  keyframes : List ViewState
  easings : List EasingRef
deriving DecidableEq, Repr

/-- `getPrerecordedCameraKeyframes`: the prerecorded camera sequence. -/
def getPrerecordedCameraKeyframes : CameraKeyframesConfig :=
  { timings := [0, 6000, 7000, 8000, 14000]
    keyframes :=
      [{ latitude := 46.24, longitude := -122.18, zoom := 11.5, bearing := 140, pitch := 60 },
       { latitude := 46.24, longitude := -122.18, zoom := 11.5, bearing := 0, pitch := 60 },
       { latitude := 36.1101, longitude := -112.1906, zoom := 12.5, pitch := 20, bearing := 15 },
       { latitude := 36.1101, longitude := -112.1906, zoom := 12.5, pitch := 20, bearing := 15 },
       { latitude := 36.1101, longitude := -112.1906, zoom := 12.5, pitch := 60, bearing := 180 }]
    easings := [EasingRef.easeInOut, EasingRef.hold, EasingRef.easeInOut, EasingRef.easeInOut] }

/-- A layer color keyframe `{r, g, b}`; rationals since hubble.gl
interpolates between the integer keyframe values. -/
structure RGB where
  r : ℚ
  g : ℚ
  b : ℚ
deriving DecidableEq, Repr

/-- Modelled from the spec: the configuration record stored by hubble.gl's
`LayerKeyframes` constructor (the class itself lives outside `src/`). -/
structure LayerKeyframesConfig where
  layerId : String
  features : List String
  keyframes : List RGB
  timings : List ℕ
  easings : List EasingRef
deriving DecidableEq, Repr

/-- The object returned by `getKeyframes`: `{terrain: new LayerKeyframes({...})}`. -/
structure KeyframesObj where
  terrain : LayerKeyframesConfig
deriving DecidableEq, Repr

/-- `getKeyframes`: the terrain color animation. -/
def getKeyframes : KeyframesObj :=
  { terrain :=
      { layerId := "terrain"
        features := ["r", "g", "b"]
        keyframes :=
          [{ r := 255, g := 255, b := 255 },
           { r := 255, g := 0, b := 0 },
           { r := 255, g := 255, b := 0 },
           { r := 0, g := 255, b := 0 },
           { r := 0, g := 255, b := 255 },
           { r := 0, g := 0, b := 255 },
           { r := 255, g := 0, b := 255 },
           { r := 255, g := 255, b := 255 }]
        timings := [0, 2000, 4000, 6000, 8000, 10000, 12000, 14000]
        easings :=
          [EasingRef.linear, EasingRef.linear, EasingRef.linear, EasingRef.linear,
           EasingRef.linear, EasingRef.linear, EasingRef.linear] } }

/-- The module-level `encoderSettings` constant, in its JavaScript object
form: `{framerate: 30, webm: {quality: 0.8}, jpeg: {quality: 0.8}, gif: {sampleInterval: 1000}}`. -/
def encoderSettings : List (String × JSVal) :=
  [("framerate", JSVal.num 30),
   ("webm", JSVal.obj [("quality", JSVal.num 0.8)]),
   ("jpeg", JSVal.obj [("quality", JSVal.num 0.8)]),
   ("gif", JSVal.obj [("sampleInterval", JSVal.num 1000)])]

/-- Modelled from the spec: the configuration stored by hubble.gl's
`FlyToKeyframes` constructor (outside `src/`); the JavaScript field `end`
is called `endVal` here because `end` is a Lean keyword. -/
structure FlyToConfig where
  start : ViewState
  endVal : ViewState
  width : ℕ
  height : ℕ
  curve : ℚ
deriving DecidableEq, Repr

/-- `getFlyToCameraKeyframes`, closing over the `viewStateA` / `viewStateB`
state values:
`new FlyToKeyframes({start: viewStateA, end: viewStateB, width: 640, height: 480, curve: 1})`. -/
def getFlyToCameraKeyframes (viewStateA viewStateB : ViewState) : FlyToConfig :=
  { start := viewStateA, endVal := viewStateB, width := 640, height := 480, curve := 1 }

/-- The React state of `App`: the `useState` hooks, in order. -/
structure AppState where
  ready : Bool
  busy : Bool
  viewState : ViewState
  viewStateA : ViewState
  viewStateB : ViewState
  duration : ℕ
  rainbow : Bool
  cameraMode : String
deriving DecidableEq, Repr

/-- The initial `App` state: `duration` has no setter so it is always
`15000`; `cameraMode` starts as `'prerecorded'`. -/
def initialAppState : AppState :=
  { ready := false
    busy := false
    viewState := INITIAL_VIEW_STATE
    viewStateA := INITIAL_VIEW_STATE
    viewStateB :=
      { latitude := 36.1101, longitude := -112.1906, zoom := 12.5, pitch := 20, bearing := 15 }
    duration := 15000
    rainbow := false
    cameraMode := "prerecorded" }

/-- The live `LayerKeyframes` object inside a scene: its configuration plus
the frame its external interpolator currently reports.  `getFrame` itself is
hubble.gl code outside `src/`; its result is abstracted as `currentFrame`. -/
structure LayerKeyframesObj where
  config : LayerKeyframesConfig
  currentFrame : RGB

/-- `keyframes.terrain.getFrame()`. -/
def LayerKeyframesObj.getFrame (k : LayerKeyframesObj) : RGB := k.currentFrame

/-- The `keyframes` field of a `DeckScene`. -/
structure SceneKeyframes where
  terrain : LayerKeyframesObj

/-- A `DeckScene` as `getLayers` reads it. -/
structure Scene where
  keyframes : SceneKeyframes

/-- The props of the `TerrainLayer` the demo constructs; `texture` is
`Option` because the code passes `null` in rainbow mode. -/
structure TerrainLayerProps where
  id : String
  minZoom : ℕ
  maxZoom : ℕ
  strategy : String
  elevationDecoder : ElevationDecoder
  elevationData : String
  texture : Option String
  wireframe : Bool
  color : List ℚ

/-- `getLayers`, closing over the `rainbow` state value and the module
constants (which depend on the environment token). -/
def getLayers (env : Option String) (s : AppState) (scene : Scene) : List TerrainLayerProps :=
  let terrain := scene.keyframes.terrain.getFrame
  [{ id := "terrain"
     minZoom := 0
     maxZoom := 23
     strategy := "no-overlap"
     elevationDecoder := ELEVATION_DECODER
     elevationData := TERRAIN_IMAGE env
     texture := if s.rainbow then none else some (SURFACE_IMAGE env)
     wireframe := false
     color := [terrain.r, terrain.g, terrain.b] }]

/-- The camera keyframe generator handed to `BasicControls`, identified by
which constructor it would invoke and with what configuration. -/
inductive CameraKeyframeGen where
  | prerecorded (config : CameraKeyframesConfig)
  | flyTo (config : FlyToConfig)
deriving DecidableEq, Repr

/-- `getCameraKeyframes = cameraMode === 'prerecorded' ? getPrerecordedCameraKeyframes : getFlyToCameraKeyframes`. -/
def appGetCameraKeyframes (s : AppState) : CameraKeyframeGen :=
  if s.cameraMode = "prerecorded" then
    CameraKeyframeGen.prerecorded getPrerecordedCameraKeyframes
  else
    CameraKeyframeGen.flyTo (getFlyToCameraKeyframes s.viewStateA s.viewStateB)

/-- The props `App` passes to `BasicControls`. -/
structure BasicControlsProps where
  busy : Bool
  encoderSettings : List (String × JSVal)
  getCameraKeyframes : CameraKeyframeGen
  keyframes : KeyframesObj

/-- The `BasicControls` element as rendered (its props), as a function of
the current state. -/
def basicControlsProps (s : AppState) : BasicControlsProps :=
  { busy := s.busy
    encoderSettings := encoderSettings
    getCameraKeyframes := appGetCameraKeyframes s
    keyframes := getKeyframes }

/-- The conditional render `{ready && <BasicControls .../>}`: the controls
exist only once `ready` is set. -/
def renderBasicControls (s : AppState) : Option BasicControlsProps :=
  if s.ready then some (basicControlsProps s) else none

/-! ## Concrete instances used to refute or instantiate claims -/

/-- The factory-default upload loading method, a representative value of
what the external `LoadDataModalFactory` provides. -/
def uploadMethodEx : LoadingMethod :=
  { id := "upload"
    label := "Load Files"
    elementType := ComponentRef.external "FileUpload"
    tabElementType := ComponentRef.external "UploadTab" }

/-- A second factory-default loading method, used to show that defaults
other than the upload one are dropped by the override. -/
def storageMethodEx : LoadingMethod :=
  { id := "storage"
    label := "Load Storage Map"
    elementType := ComponentRef.external "LoadStorageMap"
    tabElementType := ComponentRef.external "StorageTab" }

/-- An original factory whose component defaults to two loading methods. -/
def exampleOrigFactory : ComponentFactory :=
  { build := fun _ =>
      { loadingMethods := [uploadMethodEx, storageMethodEx], otherProps := [] }
    deps := [] }

/-! ## Theorems for the claims -/

/-- Claim C1: the prerecorded `CameraKeyframes` configuration has the
strictly ascending millisecond timings `[0, 6000, 7000, 8000, 14000]`, an
equal-length (5) list of view-state snapshots, and 4 easings (one per
consecutive pair); the terrain `LayerKeyframes` configuration has the
strictly ascending timings `[0, 2000, ..., 14000]`, 8 color keyframes, and
7 easings. -/
theorem camera_and_layer_keyframe_shapes :
    getPrerecordedCameraKeyframes.timings = [0, 6000, 7000, 8000, 14000]
    ∧ List.Chain' (fun a b => a < b) getPrerecordedCameraKeyframes.timings
    ∧ getPrerecordedCameraKeyframes.keyframes.length
        = getPrerecordedCameraKeyframes.timings.length
    ∧ getPrerecordedCameraKeyframes.keyframes.length = 5
    ∧ getPrerecordedCameraKeyframes.easings.length + 1
        = getPrerecordedCameraKeyframes.timings.length
    ∧ getPrerecordedCameraKeyframes.easings.length = 4
    ∧ getKeyframes.terrain.timings = [0, 2000, 4000, 6000, 8000, 10000, 12000, 14000]
    ∧ List.Chain' (fun a b => a < b) getKeyframes.terrain.timings
    ∧ getKeyframes.terrain.keyframes.length = getKeyframes.terrain.timings.length
    ∧ getKeyframes.terrain.keyframes.length = 8
    ∧ getKeyframes.terrain.easings.length + 1 = getKeyframes.terrain.timings.length
    ∧ getKeyframes.terrain.easings.length = 7 :=
  ⟨rfl, by norm_num [getPrerecordedCameraKeyframes, List.chain'_cons], rfl, rfl, rfl, rfl,
   rfl, by norm_num [getKeyframes, List.chain'_cons], rfl, rfl, rfl, rfl⟩

/-- Claim C2 (counterexample): with factory defaults `[upload, storage]`,
the produced component keeps `upload` but drops `storage`, so the produced
`loadingMethods` does not contain every factory-default method. -/
theorem loading_methods_not_all_kept :
    storageMethodEx ∈ (exampleOrigFactory.build []).loadingMethods
    ∧ some storageMethodEx ∉
        ((mkCustomLoadDataModalFactory exampleOrigFactory).build []).loadingMethods := by
  decide

/-- Claim C2 (amended): for every dependency list, the produced component's
`loadingMethods` is exactly the two-element list consisting of the first
factory-default method with id `'upload'` (undefined when there is none)
followed by the sample method; factory defaults other than that upload
method are not kept. -/
theorem loading_methods_replaced (orig : ComponentFactory) (ds : List JSVal) :
    ((mkCustomLoadDataModalFactory orig).build ds).loadingMethods
      = [((orig.build ds).loadingMethods).find? (fun lm => lm.id == "upload"),
         some additionalMethods_sample]
    ∧ ((mkCustomLoadDataModalFactory orig).build ds).loadingMethods.length = 2 :=
  ⟨rfl, rfl⟩

/-- Claim C3: for every dependency list, the produced component's
`loadingMethods` contains the sample-maps descriptor, whose id is
`LOADING_METHODS.sample` and whose label is `'Sample Maps'`. -/
theorem sample_method_added (orig : ComponentFactory) (ds : List JSVal) :
    some additionalMethods_sample ∈
        ((mkCustomLoadDataModalFactory orig).build ds).loadingMethods
    ∧ additionalMethods_sample.id = LOADING_METHODS_sample
    ∧ additionalMethods_sample.label = "Sample Maps" := by
  refine ⟨?_, rfl, rfl⟩
  simp [mkCustomLoadDataModalFactory, customizeDefaultProps]

/-- Claim C4: for every dependency list and every default-prop key other
than `loadingMethods` (the spread-preserved entries), the produced
component's value equals the one set by the original factory. -/
theorem other_default_props_preserved (orig : ComponentFactory) (ds : List JSVal)
    (k : String) :
    jsGet ((mkCustomLoadDataModalFactory orig).build ds).otherProps k
      = jsGet (orig.build ds).otherProps k :=
  rfl

/-- Claim C5: the encoder configuration handed to the recording controls is
the module-level `encoderSettings` constant on every render, and that
constant has exactly the keys framerate, webm, jpeg, gif with values 30,
`{quality: 0.8}`, `{quality: 0.8}`, `{sampleInterval: 1000}`. -/
theorem encoder_settings_constant (s : AppState) (props : BasicControlsProps)
    (h : renderBasicControls s = some props) :
    props.encoderSettings = encoderSettings
    ∧ encoderSettings.map Prod.fst = ["framerate", "webm", "jpeg", "gif"]
    ∧ jsGet encoderSettings "framerate" = some (JSVal.num 30)
    ∧ jsGet encoderSettings "webm" = some (JSVal.obj [("quality", JSVal.num 0.8)])
    ∧ jsGet encoderSettings "jpeg" = some (JSVal.obj [("quality", JSVal.num 0.8)])
    ∧ jsGet encoderSettings "gif" = some (JSVal.obj [("sampleInterval", JSVal.num 1000)]) := by
  have hp : props = basicControlsProps s := by
    by_cases hr : s.ready = true
    · simp [renderBasicControls, hr] at h
      exact h.symm
    · simp [renderBasicControls, hr] at h
  subst hp
  exact ⟨rfl, rfl, rfl, rfl, rfl, rfl⟩

/-- Claim C5 witness: instantiation at a ready state. -/
theorem encoder_settings_constant_witness :
    (basicControlsProps { initialAppState with ready := true }).encoderSettings
        = encoderSettings
    ∧ encoderSettings.map Prod.fst = ["framerate", "webm", "jpeg", "gif"]
    ∧ jsGet encoderSettings "framerate" = some (JSVal.num 30)
    ∧ jsGet encoderSettings "webm" = some (JSVal.obj [("quality", JSVal.num 0.8)])
    ∧ jsGet encoderSettings "jpeg" = some (JSVal.obj [("quality", JSVal.num 0.8)])
    ∧ jsGet encoderSettings "gif" = some (JSVal.obj [("sampleInterval", JSVal.num 1000)]) :=
  encoder_settings_constant { initialAppState with ready := true }
    (basicControlsProps { initialAppState with ready := true }) rfl

/-- Claim C6: the sample loading-method descriptor has exactly the four
fields id, label, elementType and tabElementType, in that order, with the
expected values. -/
theorem sample_descriptor_shape :
    sampleMethodObj.map Prod.fst = ["id", "label", "elementType", "tabElementType"]
    ∧ jsGet sampleMethodObj "id" = some (JSVal.str LOADING_METHODS_sample)
    ∧ jsGet sampleMethodObj "label" = some (JSVal.str "Sample Maps")
    ∧ jsGet sampleMethodObj "elementType"
        = some (JSVal.compRef ComponentRef.SampleMapGallery)
    ∧ jsGet sampleMethodObj "tabElementType"
        = some (JSVal.compRef ComponentRef.SampleMapsTab)
    ∧ additionalMethods.map Prod.fst = ["sample"] :=
  ⟨rfl, rfl, rfl, rfl, rfl, rfl⟩

/-- Claim C7: there is no guard on the map access token: for every value of
the environment variable, including `undefined`, the module constants are
built by unconditional template interpolation of the token, and with the
token absent the URLs literally end in `access_token=undefined`. -/
theorem no_token_validation (env : Option String) :
    MAPBOX_TOKEN env = env
    ∧ TERRAIN_IMAGE env
        = "https://api.mapbox.com/v4/mapbox.terrain-rgb/\x7bz\x7d/\x7bx\x7d/\x7by\x7d.png?access_token="
            ++ env.getD "undefined"
    ∧ SURFACE_IMAGE env
        = "https://api.mapbox.com/v4/mapbox.satellite/\x7bz\x7d/\x7bx\x7d/\x7by\x7d@2x.png?access_token="
            ++ env.getD "undefined"
    ∧ TERRAIN_IMAGE none
        = "https://api.mapbox.com/v4/mapbox.terrain-rgb/\x7bz\x7d/\x7bx\x7d/\x7by\x7d.png?access_token=undefined" :=
  ⟨rfl, rfl, rfl, rfl⟩

/-- Claim C8: the override preserves the original factory's dependency
list: `CustomLoadDataModalFactory.deps = LoadDataModalFactory.deps`. -/
theorem custom_factory_deps_preserved (orig : ComponentFactory) :
    (mkCustomLoadDataModalFactory orig).deps = orig.deps :=
  rfl

/-- Claim C9: for every environment, state and scene, `getLayers` returns
exactly one `TerrainLayer`, whose color is the `[r, g, b]` triple of the
current frame of the scene's terrain keyframes, and whose texture is null
exactly when rainbow is set (and the satellite surface URL exactly
otherwise). -/
theorem get_layers_single_terrain (env : Option String) (s : AppState) (scene : Scene) :
    ∃ layer : TerrainLayerProps,
      getLayers env s scene = [layer]
      ∧ layer.color =
          [scene.keyframes.terrain.getFrame.r,
           scene.keyframes.terrain.getFrame.g,
           scene.keyframes.terrain.getFrame.b]
      ∧ (layer.texture = none ↔ s.rainbow = true)
      ∧ (layer.texture = some (SURFACE_IMAGE env) ↔ s.rainbow = false)
      ∧ layer.elevationData = TERRAIN_IMAGE env
      ∧ layer.id = "terrain" := by
  refine ⟨_, rfl, rfl, ?_, ?_, rfl, rfl⟩ <;> cases hr : s.rainbow <;> simp [hr]

/-- Claim C10: the camera keyframe generator handed to the recording
controls is the prerecorded-sequence generator exactly when `cameraMode`
is `'prerecorded'`, and otherwise the fly-to generator built from the
current `viewStateA` / `viewStateB`. -/
theorem camera_mode_selects_generator (s : AppState) :
    (appGetCameraKeyframes s
        = CameraKeyframeGen.prerecorded getPrerecordedCameraKeyframes
      ↔ s.cameraMode = "prerecorded")
    ∧ (¬ s.cameraMode = "prerecorded" →
        appGetCameraKeyframes s
          = CameraKeyframeGen.flyTo (getFlyToCameraKeyframes s.viewStateA s.viewStateB)) := by
  constructor
  · constructor
    · intro hEq
      by_contra hne
      simp [appGetCameraKeyframes, hne] at hEq
    · intro h
      simp [appGetCameraKeyframes, h]
  · intro hne
    simp [appGetCameraKeyframes, hne]

/-- Claim C10 witness: instantiation at a fly-to state. -/
theorem camera_mode_selects_generator_witness :
    appGetCameraKeyframes { initialAppState with cameraMode := "fly-to" }
      = CameraKeyframeGen.flyTo
          (getFlyToCameraKeyframes
            ({ initialAppState with cameraMode := "fly-to" } : AppState).viewStateA
            ({ initialAppState with cameraMode := "fly-to" } : AppState).viewStateB) :=
  (camera_mode_selects_generator { initialAppState with cameraMode := "fly-to" }).2
    (by decide)

end KeplerIntegration
